import Mathlib

/-!
Verification of the CodeCraft Interactive tutor application
(`src/streamlit_app.py`) against its natural-language specification.

The development shallowly embeds the three subsystems the spec names:
the display reconciler (lines 100-121 of the source), the free-text
chat-input handler (lines 126-138), and the code runner together with
the run-code button handler (lines 153-224).  Python strings become
`String`, the message dictionaries become the structure `Turn`, the
session transcript (`st.session_state.messages`) becomes `List Turn`,
and the outcome of `exec`-uting learner code is abstracted by the
inductive `PyOutcome` (the source never inspects more of the Python
execution than: the captured stdout text on success, or the exception
class name, message, formatted traceback, and whether the exception is
an `Exception` subclass, on failure).
-/

set_option autoImplicit false

deriving instance DecidableEq for Except

/-- The two roles a transcript entry can carry (`msg['role']` in the
source is always the literal `'user'` or `'assistant'`). -/
inductive Role where
  | user : Role
  | assistant : Role
deriving DecidableEq, Repr

/-- One transcript entry: the dictionary
`{'role': ..., 'content': ...}` of the source. -/
structure Turn where
  role : Role
  content : String
deriving DecidableEq, Repr

/-- Option fallback, written out so proofs can unfold it:
`orO a b` is `a` when `a` is `some`, else `b`. -/
def orO (a b : Option Turn) : Option Turn :=
  match a with
  | some x => some x
  | none => b

/-- The backward scan of source lines 104-111.  The loop walks the
reversed message list keeping two accumulators (`last_assistant_msg`,
`last_user_msg`), fills each at its first hit (`if` / `elif`), and
breaks as soon as both are filled. -/
def scanPair : List Turn → Option Turn → Option Turn → Option Turn × Option Turn
  | [], a, u => (a, u)
  | m :: rest, a, u =>
    let p :=
      if m.role = Role.assistant ∧ a = none then (some m, u)
      else if m.role = Role.user ∧ u = none then (a, some m)
      else (a, u)
    if p.1.isSome ∧ p.2.isSome then p else scanPair rest p.1 p.2

/-- The display reconciler's selection: scan the transcript from the
most recent entry backward (the `reversed(st.session_state.messages)`
loop), returning the pair (last assistant message, last user message),
each `none` when absent. -/
def select (msgs : List Turn) : Option Turn × Option Turn :=
  scanPair msgs.reverse none none

/-- The most recent turn of a given role: first hit of a backward scan.
Used to characterise what `select` returns. -/
def mostRecent (ro : Role) (msgs : List Turn) : Option Turn :=
  msgs.reverse.find? (fun m => decide (m.role = ro))

/-- The rendering step of source lines 115-121: render the selected
assistant turn when present; render the selected user turn when present
and either no assistant turn was found or
`messages.index(last_user_msg) > messages.index(last_assistant_msg)`
(Python `list.index` returns the first index holding an equal element,
which `List.indexOf` also does). -/
def renderList (msgs : List Turn) : List Turn :=
  let s := select msgs
  (match s.1 with
   | some a => [a]
   | none => []) ++
  (match s.2 with
   | none => []
   | some u =>
     match s.1 with
     | none => [u]
     | some a => if msgs.indexOf u > msgs.indexOf a then [u] else [])

/-- Position in `msgs` of the most recent turn of role `ro` (meaningful
when such a turn exists).  This is the "position in the transcript" of
the selected turn that the specification's ordering rule speaks about. -/
def lastPos (ro : Role) (msgs : List Turn) : Nat :=
  msgs.length - 1 - msgs.reverse.findIdx (fun m => decide (m.role = ro))

/-- The rendering rule as the specification words it ("the user turn's
position in the transcript is strictly after the assistant turn's
position"): positions of the selected turns themselves, not first
occurrences of equal values.  Kept separate from `renderList`, which is
translated from the source, so the two can be compared. -/
def specRender (msgs : List Turn) : List Turn :=
  match mostRecent Role.assistant msgs, mostRecent Role.user msgs with
  | none, none => []
  | some a, none => [a]
  | none, some u => [u]
  | some a, some u =>
    if lastPos Role.user msgs > lastPos Role.assistant msgs then [a, u] else [a]

theorem orO_some (x : Turn) (b : Option Turn) : orO (some x) b = some x := rfl

theorem orO_none (b : Option Turn) : orO none b = b := rfl

/-- The scan with its accumulators and early break computes, for each
role, the accumulator if already set and otherwise the first remaining
turn of that role. -/
theorem scanPair_eq (l : List Turn) :
    ∀ a u : Option Turn,
      scanPair l a u =
        (orO a (l.find? (fun m => decide (m.role = Role.assistant))),
         orO u (l.find? (fun m => decide (m.role = Role.user)))) := by
  induction l with
  | nil =>
    intro a u
    cases a <;> cases u <;> simp [scanPair, orO]
  | cons m rest ih =>
    intro a u
    rcases m with ⟨mr, mc⟩
    cases mr <;> cases a <;> cases u <;>
      simp [scanPair, List.find?, orO, ih]

/-- `select` returns exactly the most recent assistant turn and the most
recent user turn. -/
theorem select_eq_mostRecent (msgs : List Turn) :
    select msgs = (mostRecent Role.assistant msgs, mostRecent Role.user msgs) := by
  simp [select, mostRecent, scanPair_eq, orO]

/-!
## Code runner (source lines 164-196)

`exec(user_code, {})` runs learner code whose behaviour the embedding
abstracts as a `PyOutcome`: either normal termination with the text the
code wrote to stdout, or a raised error carrying whatever stdout text
had been written before the raise, the error class name, its message,
the formatted-frames section of the traceback, and whether the error's
class is a subclass of Python's `Exception` (the class the source's
`except Exception` clause catches; `SystemExit`/`KeyboardInterrupt`
derive only from `BaseException` and are not caught).
-/

/-- Abstract outcome of executing a piece of learner code. -/
inductive PyOutcome where
  | ok (stdout : String) : PyOutcome
  | raised (isException : Bool) (stdoutSoFar kind msg frames : String) : PyOutcome
deriving DecidableEq, Repr

/-- The four fields of a code-execution result.  In the source these
are the variables `error_occurred` (negated), `execution_result`,
`error_short` and `error_details`; all four start out falsy/empty and
only the branch taken fills its own fields. -/
structure ExecutionResult where
  succeeded : Bool
  captured_text : String
  error_summary : String
  error_detail : String
deriving DecidableEq, Repr

/-- Python's `str.strip()` with no argument: drop leading and trailing
whitespace characters (space, tab, carriage return, newline — the
characters `Char.isWhitespace` covers). -/
def pyStrip (s : String) : String :=
  ⟨((s.data.dropWhile Char.isWhitespace).reverse.dropWhile Char.isWhitespace).reverse⟩

/-- Shape of CPython's `traceback.format_exc()` for an active exception:
the fixed header line, the formatted stack frames, then
`<kind>: <message>` and a final newline. -/
def formatExc (frames kind msg : String) : String :=
  "Traceback (most recent call last):\n" ++ frames ++ kind ++ ": " ++ msg ++ "\n"

/-- The `try`/`except Exception` block of source lines 171-182.
On normal termination the captured stdout is `.strip()`-ed
(`pyStrip`).  On a raised `Exception` the summary is
`f"{exc_type.__name__}: {exc_value}"` and the detail is
`traceback.format_exc()`; the stdout captured before the raise is never
read.  An error that is not an `Exception` subclass is not caught and
propagates out of the run (modelled as `Except.error (kind, msg)`). -/
def run (o : PyOutcome) : Except (String × String) ExecutionResult :=
  match o with
  | PyOutcome.ok out => Except.ok ⟨true, pyStrip out, "", ""⟩
  | PyOutcome.raised true _ kind msg frames =>
      Except.ok ⟨false, "", kind ++ ": " ++ msg, formatExc frames kind msg⟩
  | PyOutcome.raised false _ kind msg _ => Except.error (kind, msg)

/-- `result_display_content` (source lines 175 and 181): on success the
trimmed stdout, with Python's `or` substituting the success banner for
an empty string; on a caught error the 💥-prefixed summary. -/
def resultDisplay (r : ExecutionResult) : String :=
  if r.succeeded then
    (if r.captured_text = "" then "✅ Code ran successfully (No output)"
     else r.captured_text)
  else "💥 " ++ r.error_summary

/-- The evaluation prompt sent to the model after a run (source lines
204-210); it interpolates `result_display_content` and `error_details`
only. -/
def aiPrompt (disp detail : String) : String :=
  "The user ran the code shown in their last message. The result/output was:\n```text\n"
    ++ disp
    ++ "```\n\n(Full error trace if any: "
    ++ detail
    ++ ")\n\nPlease evaluate this based on the conversation context/last task. "
    ++ "Provide feedback according to the teaching style: praise success and suggest the next logical small step, "
    ++ "OR if there was an error, explain the error message/concept and guide towards the fix."

/-- A string is a single line when it holds no newline character. -/
def singleLine (s : String) : Prop := '\n' ∉ s.data

instance singleLineDecidable (s : String) : Decidable (singleLine s) :=
  inferInstanceAs (Decidable ('\n' ∉ s.data))

/-!
## Conversation handlers (source lines 126-138 and 153-224)
-/

/-- The `try: chat.send_message(...)` tail shared by both handlers: on a
reply, append it as an assistant turn (no error reported); on a raised
transport/service error, report it (`st.error`) and append nothing.
The `Bool` is `true` when the failure was reported. -/
def sendStage (msgs : List Turn) (reply : Option String) : List Turn × Bool :=
  match reply with
  | some r => (msgs ++ [⟨Role.assistant, r⟩], false)
  | none => (msgs, true)

/-- The free-text chat-input handler (source lines 126-138): append the
user's prompt to the transcript, then run the send stage. -/
def chatInputHandler (msgs : List Turn) (prompt : String) (reply : Option String) :
    List Turn × Bool :=
  sendStage (msgs ++ [⟨Role.user, prompt⟩]) reply

/-- A whole sequence of free-text sends, each event being the prompt
together with the remote service's reply (`none` = the send raised). -/
def chatSession (msgs : List Turn) : List (String × Option String) → List Turn
  | [] => msgs
  | ev :: evs => chatSession (chatInputHandler msgs ev.1 ev.2).1 evs

/-- Transcript growth contributed by a list of send events: 2 per
successful send, 1 per failed send. -/
def sendGrowth (evs : List (String × Option String)) : Nat :=
  (evs.map (fun ev => match ev.2 with | some _ => 2 | none => 1)).sum

/-- The fenced code block built at source line 159. -/
def codeBlock (code : String) : String := "```python\n" ++ code ++ "\n```"

/-- The string appended in place to the just-added user turn at source
line 196. -/
def resultSuffix (disp : String) : String :=
  "\n**Result:**\n```text\n" ++ disp ++ "\n```"

/-- `st.session_state.messages[-1]["content"] += s`: extend the content
of the last turn in place, touching nothing else. -/
def extendLast : List Turn → String → List Turn
  | [], _ => []
  | [t], s => [⟨t.role, t.content ++ s⟩]
  | t :: ts, s => t :: extendLast ts s

/-- How a run-code action ends: the handler completes (with or without
reporting a remote-service failure), or an uncaught error from the
learner's code propagates to the host application. -/
inductive HandlerExit where
  | completed (errorReported : Bool) : HandlerExit
  | propagated (kind msg : String) : HandlerExit
deriving DecidableEq, Repr

/-- The run-code button handler (source lines 153-224): append the user
turn holding the fenced code, execute the code, and — when the runner
caught the outcome — extend that same turn with the displayed result and
run the send stage on the evaluation prompt's reply.  An uncaught error
leaves the transcript with the user turn appended and propagates. -/
def runCodeHandler (msgs : List Turn) (code : String) (o : PyOutcome)
    (reply : Option String) : List Turn × HandlerExit :=
  let msgs1 := msgs ++ [⟨Role.user, codeBlock code⟩]
  match run o with
  | Except.error e => (msgs1, HandlerExit.propagated e.1 e.2)
  | Except.ok r =>
    let msgs2 := extendLast msgs1 (resultSuffix (resultDisplay r))
    let st := sendStage msgs2 reply
    (st.1, HandlerExit.completed st.2)

/-!
## Execution isolation (source line 173)
-/

/-- A Python variable namespace, as a list of bindings.  The source
always passes the freshly created empty dict `{}`. -/
def PyNamespace : Type := List (String × String)

/-- The visible session state a run could in principle depend on:
the transcript, the editor draft, and any other host variables. -/
structure SessionState where
  messages : List Turn
  current_code : String
  hostVars : PyNamespace

/-- One code run as the source performs it, for an arbitrary execution
semantics `pyExec` mapping a source text and the variable namespace it
is started in to an outcome: the runner always supplies the empty
namespace and consults no part of the session state. -/
def codeRun (pyExec : String → PyNamespace → PyOutcome) (_sess : SessionState)
    (src : String) : Except (String × String) ExecutionResult :=
  run (pyExec src ([] : List (String × String)))

/-- A sequence of runs in one session: each run is started the same way,
with no namespace threaded from earlier runs. -/
def runMany (pyExec : String → PyNamespace → PyOutcome) (sess : SessionState)
    (srcs : List String) : List (Except (String × String) ExecutionResult) :=
  srcs.map (codeRun pyExec sess)

/-- `extendLast` on a transcript with a freshly appended last turn:
earlier turns and every role are untouched; only the appended turn's
content is extended. -/
theorem extendLast_append (l : List Turn) (t : Turn) (s : String) :
    extendLast (l ++ [t]) s = l ++ [⟨t.role, t.content ++ s⟩] := by
  induction l with
  | nil => rfl
  | cons x xs ih =>
    cases xs with
    | nil => simp [extendLast]
    | cons y ys => simpa [extendLast] using ih

/-- Length bookkeeping for one free-text send. -/
theorem chatInputHandler_length (msgs : List Turn) (prompt : String)
    (reply : Option String) :
    (chatInputHandler msgs prompt reply).1.length =
      msgs.length + (match reply with | some _ => 2 | none => 1) := by
  cases reply <;> simp [chatInputHandler, sendStage]

/-- C1 counterexample.  On the transcript
`[assistant "s", user "u", assistant "s"]` — an instance of the claim's
`[assistant A1, user U1, assistant A2]` schema with `A1 = A2 = "s"` —
the most recent user turn sits at position 1, strictly before the most
recent assistant turn at position 2, so the claim (and its "only A2 is
rendered" example) says only the assistant turn is rendered; the code
compares `list.index` values, i.e. first occurrences of equal entries
(0 for the assistant turn found at position 2), and renders both turns. -/
theorem renderList_violates_positional_rule :
    renderList [⟨Role.assistant, "s"⟩, ⟨Role.user, "u"⟩, ⟨Role.assistant, "s"⟩] =
        [⟨Role.assistant, "s"⟩, ⟨Role.user, "u"⟩] ∧
      lastPos Role.user [⟨Role.assistant, "s"⟩, ⟨Role.user, "u"⟩, ⟨Role.assistant, "s"⟩] <
        lastPos Role.assistant
          [⟨Role.assistant, "s"⟩, ⟨Role.user, "u"⟩, ⟨Role.assistant, "s"⟩] ∧
      renderList [⟨Role.assistant, "s"⟩, ⟨Role.user, "u"⟩, ⟨Role.assistant, "s"⟩] ≠
        specRender [⟨Role.assistant, "s"⟩, ⟨Role.user, "u"⟩, ⟨Role.assistant, "s"⟩] := by
  refine ⟨by decide, by decide, by decide⟩

/-- C1 (amended).  For every transcript, the backward scan selects the
most recent assistant turn and the most recent user turn; when both
exist, the assistant turn is rendered first, and the user turn is
rendered after it if and only if the first transcript position holding
an entry equal to the user turn is strictly after the first position
holding an entry equal to the assistant turn (these first-occurrence
positions coincide with the selected turns' own positions whenever no
equal duplicate turn occurs earlier in the transcript, so the claim's
concrete examples hold whenever the turns involved are pairwise
distinct); with only an assistant turn (or only a user turn) found,
just that turn is rendered. -/
theorem display_selection_amended (msgs : List Turn) :
    select msgs = (mostRecent Role.assistant msgs, mostRecent Role.user msgs) ∧
      (∀ a u, select msgs = (some a, some u) →
        renderList msgs = [a] ++ (if msgs.indexOf u > msgs.indexOf a then [u] else [])) ∧
      (∀ a, select msgs = (some a, none) → renderList msgs = [a]) ∧
      (∀ u, select msgs = (none, some u) → renderList msgs = [u]) ∧
      (select msgs = (none, none) → renderList msgs = []) := by
  refine ⟨select_eq_mostRecent msgs, ?_, ?_, ?_, ?_⟩
  · intro a u h
    simp [renderList, h]
  · intro a h
    simp [renderList, h]
  · intro u h
    simp [renderList, h]
  · intro h
    simp [renderList, h]

/-- C1 witness: the claim's second example, transcript
`[assistant "a1", user "u1"]`, through the amended theorem: both turns
are selected and rendered in the order (assistant, user). -/
theorem display_selection_amended_witness :
    select [⟨Role.assistant, "a1"⟩, ⟨Role.user, "u1"⟩] =
        (some ⟨Role.assistant, "a1"⟩, some ⟨Role.user, "u1"⟩) ∧
      renderList [⟨Role.assistant, "a1"⟩, ⟨Role.user, "u1"⟩] =
        [⟨Role.assistant, "a1"⟩] ++
          (if List.indexOf (⟨Role.user, "u1"⟩ : Turn)
                [⟨Role.assistant, "a1"⟩, ⟨Role.user, "u1"⟩] >
              List.indexOf (⟨Role.assistant, "a1"⟩ : Turn)
                [⟨Role.assistant, "a1"⟩, ⟨Role.user, "u1"⟩]
           then [⟨Role.user, "u1"⟩] else []) :=
  ⟨by decide,
   (display_selection_amended [⟨Role.assistant, "a1"⟩, ⟨Role.user, "u1"⟩]).2.1
     ⟨Role.assistant, "a1"⟩ ⟨Role.user, "u1"⟩ (by decide)⟩

/-- C8: display selection is a deterministic pure function of the
transcript — two calls on the same unmutated transcript return
identical selections and identical rendered lists. -/
theorem select_deterministic (t1 t2 : List Turn) (h : t1 = t2) :
    select t1 = select t2 ∧ renderList t1 = renderList t2 := by
  subst h
  exact ⟨rfl, rfl⟩

/-- Helper: transcript length after a sequence of free-text sends. -/
theorem chatSession_length (evs : List (String × Option String)) :
    ∀ msgs : List Turn, (chatSession msgs evs).length = msgs.length + sendGrowth evs := by
  induction evs with
  | nil =>
    intro msgs
    simp [chatSession, sendGrowth]
  | cons ev evs ih =>
    intro msgs
    have h1 := chatInputHandler_length msgs ev.1 ev.2
    have h2 := ih (chatInputHandler msgs ev.1 ev.2).1
    simp only [chatSession, sendGrowth, List.map_cons, List.sum_cons] at h2 ⊢
    rw [h2, h1]
    cases ev.2 <;> simp [sendGrowth] <;> omega

/-- C2: a failed send leaves the transcript exactly as it was when the
send began and reports the failure.  `sendStage` is the shared
`try: chat.send_message ... except: st.error` tail of both handlers;
the second conjunct is the free-text handler (whose transcript at the
moment the send begins is `msgs ++ [user prompt]`), the third the
run-code handler (whose transcript at that moment is the appended and
in-place-extended user turn): in each case the failing send appends no
assistant turn and changes nothing. -/
theorem send_failure_atomic (msgs : List Turn) (prompt code : String)
    (o : PyOutcome) (r : ExecutionResult) :
    sendStage msgs none = (msgs, true) ∧
      chatInputHandler msgs prompt none = (msgs ++ [⟨Role.user, prompt⟩], true) ∧
      (run o = Except.ok r →
        runCodeHandler msgs code o none =
          (extendLast (msgs ++ [⟨Role.user, codeBlock code⟩])
              (resultSuffix (resultDisplay r)),
           HandlerExit.completed true)) := by
  refine ⟨rfl, rfl, ?_⟩
  intro h
  simp [runCodeHandler, h, sendStage]

/-- C2 witness: a concrete failed send after running `print(1)` ends
with the failure reported and the transcript equal to the pre-send
transcript (the user turn with its in-place result, no assistant turn). -/
theorem send_failure_atomic_witness :
    run (PyOutcome.ok "1\n") = Except.ok ⟨true, "1", "", ""⟩ ∧
      runCodeHandler [⟨Role.assistant, "hi"⟩] "print(1)" (PyOutcome.ok "1\n") none =
        (extendLast ([⟨Role.assistant, "hi"⟩] ++ [⟨Role.user, codeBlock "print(1)"⟩])
            (resultSuffix (resultDisplay ⟨true, "1", "", ""⟩)),
         HandlerExit.completed true) :=
  ⟨by decide,
   (send_failure_atomic [⟨Role.assistant, "hi"⟩] "hi" "print(1)" (PyOutcome.ok "1\n")
       ⟨true, "1", "", ""⟩).2.2 (by decide)⟩

/-- C3: each free-text send grows the transcript by exactly 2 on
success — the user turn then the assistant turn — and by exactly 1 on
failure — the user turn only; over any sequence of sends the length
grows by the sum of those contributions. -/
theorem transcript_growth (msgs : List Turn) (prompt r : String) :
    (chatInputHandler msgs prompt (some r)).1 =
        msgs ++ [⟨Role.user, prompt⟩, ⟨Role.assistant, r⟩] ∧
      (chatInputHandler msgs prompt (some r)).1.length = msgs.length + 2 ∧
      (chatInputHandler msgs prompt none).1 = msgs ++ [⟨Role.user, prompt⟩] ∧
      (chatInputHandler msgs prompt none).1.length = msgs.length + 1 ∧
      (∀ evs, (chatSession msgs evs).length = msgs.length + sendGrowth evs) := by
  refine ⟨by simp [chatInputHandler, sendStage], by simp [chatInputHandler, sendStage], ?_, ?_, ?_⟩
  · simp [chatInputHandler, sendStage]
  · simp [chatInputHandler, sendStage]
  · intro evs
    exact chatSession_length evs msgs

/-- C7: the transcript is append-only except for the single in-place
content extension of the run-code action, and that extension targets
the user turn appended in the immediately preceding step.  Conjuncts:
(1) extending the last turn of a transcript that ends in a freshly
appended turn leaves every earlier turn untouched and preserves the
target's role, only extending its content; (2) the run-code handler
produces exactly the old transcript, then the user turn holding the
fenced code extended with the result, then at most one appended
assistant turn; (3) no turn's role is ever changed: the role sequence
is the old one plus `user` (plus `assistant` when a reply arrives);
(4) the free-text handler only appends. -/
theorem runCode_mutation_invariant (msgs : List Turn) (code : String)
    (o : PyOutcome) (reply : Option String) :
    (∀ (l : List Turn) (t : Turn) (s : String),
        extendLast (l ++ [t]) s = l ++ [⟨t.role, t.content ++ s⟩]) ∧
      (∀ r, run o = Except.ok r →
        (runCodeHandler msgs code o reply).1 =
          msgs ++ ⟨Role.user, codeBlock code ++ resultSuffix (resultDisplay r)⟩ ::
            (match reply with | some rep => [⟨Role.assistant, rep⟩] | none => [])) ∧
      ((runCodeHandler msgs code o reply).1.map Turn.role =
        msgs.map Turn.role ++ Role.user ::
          (match run o, reply with
           | Except.ok _, some _ => [Role.assistant]
           | _, _ => [])) ∧
      (∀ (prompt : String) (rep : Option String),
        (chatInputHandler msgs prompt rep).1 =
          msgs ++ ⟨Role.user, prompt⟩ ::
            (match rep with | some rr => [⟨Role.assistant, rr⟩] | none => [])) := by
  refine ⟨extendLast_append, ?_, ?_, ?_⟩
  · intro r h
    cases reply <;> simp [runCodeHandler, h, sendStage, extendLast_append]
  · cases ho : run o <;> cases reply <;>
      simp [runCodeHandler, ho, sendStage, extendLast_append]
  · intro prompt rep
    cases rep <;> simp [chatInputHandler, sendStage]

/-- C7 witness: running `print(1)` in a one-turn transcript with a
successful evaluation reply yields exactly the old transcript, the
extended user turn, and the new assistant turn. -/
theorem runCode_mutation_invariant_witness :
    run (PyOutcome.ok "1\n") = Except.ok ⟨true, "1", "", ""⟩ ∧
      (runCodeHandler [⟨Role.assistant, "hi"⟩] "print(1)" (PyOutcome.ok "1\n")
          (some "good")).1 =
        [⟨Role.assistant, "hi"⟩] ++
          ⟨Role.user, codeBlock "print(1)" ++ resultSuffix (resultDisplay ⟨true, "1", "", ""⟩)⟩ ::
            [⟨Role.assistant, "good"⟩] :=
  ⟨by decide,
   (runCode_mutation_invariant [⟨Role.assistant, "hi"⟩] "print(1)" (PyOutcome.ok "1\n")
       (some "good")).2.1 ⟨true, "1", "", ""⟩ (by decide)⟩

/-- What the run-code handler relays to the tutor model about a caught
execution result: the evaluation prompt interpolating the displayed
result string and the error detail (source lines 204-210). -/
def tutorRelay (r : ExecutionResult) : String :=
  aiPrompt (resultDisplay r) r.error_detail

/-- C4: a source text whose execution raises no error yields
`succeeded = true` with `captured_text` the stripped stdout; when the
stripped stdout is empty the value shown to the user is the fixed
non-empty success banner, and the shown value is never the empty
string. -/
theorem run_success_postcondition (s : String) :
    run (PyOutcome.ok s) = Except.ok ⟨true, pyStrip s, "", ""⟩ ∧
      (pyStrip s = "" →
        resultDisplay ⟨true, pyStrip s, "", ""⟩ = "✅ Code ran successfully (No output)") ∧
      resultDisplay ⟨true, pyStrip s, "", ""⟩ ≠ "" := by
  refine ⟨rfl, ?_, ?_⟩
  · intro h
    simp [resultDisplay, h]
  · by_cases h : pyStrip s = ""
    · simp only [resultDisplay, h, if_pos, if_true]
      decide
    · simp [resultDisplay, h]

/-- C4 witness: stdout `"\n"` strips to the empty string and the user
sees the non-empty success banner. -/
theorem run_success_postcondition_witness :
    run (PyOutcome.ok "\n") = Except.ok ⟨true, pyStrip "\n", "", ""⟩ ∧
      resultDisplay ⟨true, pyStrip "\n", "", ""⟩ = "✅ Code ran successfully (No output)" ∧
      resultDisplay ⟨true, pyStrip "\n", "", ""⟩ ≠ "" :=
  ⟨(run_success_postcondition "\n").1,
   (run_success_postcondition "\n").2.1 (by decide),
   (run_success_postcondition "\n").2.2⟩

/-- C5 counterexample.  Learner code may raise an exception whose
message itself spans lines — for example `raise ValueError("a\nb")` —
and then `error_summary` is `"ValueError: a\nb"`, which follows the
`<ErrorKind>: <message>` format but is not a single line, contrary to
the claim's "the single line". -/
theorem error_summary_multiline_counterexample :
    run (PyOutcome.raised true "" "ValueError" "a\nb" "tb\n") =
        Except.ok ⟨false, "", "ValueError: a\nb", formatExc "tb\n" "ValueError" "a\nb"⟩ ∧
      ¬ singleLine "ValueError: a\nb" := by
  exact ⟨rfl, by decide⟩

/-- C5 (amended): for every source text whose execution raises an
ordinary error, run returns `succeeded = false`, `error_summary` equal
to `<ErrorKind>: <message>` — a single line whenever the kind and the
message themselves contain no newline (an exception message containing
a newline makes the summary span several lines) — and a non-empty
`error_detail` holding the full diagnostic trace. -/
theorem run_failure_postcondition_amended (so kind msg frames : String) :
    run (PyOutcome.raised true so kind msg frames) =
        Except.ok ⟨false, "", kind ++ ": " ++ msg, formatExc frames kind msg⟩ ∧
      formatExc frames kind msg ≠ "" ∧
      (singleLine kind → singleLine msg → singleLine (kind ++ ": " ++ msg)) := by
  refine ⟨rfl, ?_, ?_⟩
  · intro h
    have hd := congrArg String.data h
    simp [formatExc, String.data_append] at hd
  · intro h1 h2
    unfold singleLine at h1 h2 ⊢
    intro hmem
    rw [String.data_append, String.data_append] at hmem
    rcases List.mem_append.mp hmem with h | h
    · rcases List.mem_append.mp h with h' | h'
      · exact h1 h'
      · exact absurd h' (by decide)
    · exact h2 h

/-- C5 witness: a `NameError` with a one-line message gives the
formatted single-line summary and a non-empty detail trace. -/
theorem run_failure_postcondition_amended_witness :
    run (PyOutcome.raised true "" "NameError" "name 'x' is not defined" "f\n") =
        Except.ok ⟨false, "", "NameError" ++ ": " ++ "name 'x' is not defined",
          formatExc "f\n" "NameError" "name 'x' is not defined"⟩ ∧
      formatExc "f\n" "NameError" "name 'x' is not defined" ≠ "" ∧
      singleLine ("NameError" ++ ": " ++ "name 'x' is not defined") :=
  ⟨(run_failure_postcondition_amended "" "NameError" "name 'x' is not defined" "f\n").1,
   (run_failure_postcondition_amended "" "NameError" "name 'x' is not defined" "f\n").2.1,
   (run_failure_postcondition_amended "" "NameError" "name 'x' is not defined" "f\n").2.2
     (by decide) (by decide)⟩

/-- C9: when execution raises a caught error, the stdout text written
before the raise is discarded: the execution result is identical for
any two pre-raise outputs, its `captured_text` is empty, the value
shown to the user is the 💥-prefixed summary, and the text relayed to
the tutor is built from the displayed summary and the trace only. -/
theorem error_discards_partial_output (p q kind msg frames : String) :
    run (PyOutcome.raised true p kind msg frames) =
        run (PyOutcome.raised true q kind msg frames) ∧
      run (PyOutcome.raised true p kind msg frames) =
        Except.ok ⟨false, "", kind ++ ": " ++ msg, formatExc frames kind msg⟩ ∧
      resultDisplay ⟨false, "", kind ++ ": " ++ msg, formatExc frames kind msg⟩ =
        "💥 " ++ (kind ++ ": " ++ msg) ∧
      tutorRelay ⟨false, "", kind ++ ": " ++ msg, formatExc frames kind msg⟩ =
        aiPrompt ("💥 " ++ (kind ++ ": " ++ msg)) (formatExc frames kind msg) := by
  refine ⟨rfl, rfl, ?_, ?_⟩
  · simp [resultDisplay]
  · simp [tutorRelay, resultDisplay]

/-- C10: the `except Exception` clause converts exactly the ordinary
`Exception` subclasses into an `ExecutionResult`; an error outside that
class (a system-exit or keyboard-interrupt request) is not captured and
propagates out of the run to the host application. -/
theorem only_ordinary_exceptions_captured
    (soA kindA msgA framesA soB kindB msgB framesB : String) :
    run (PyOutcome.raised false soA kindA msgA framesA) = Except.error (kindA, msgA) ∧
      run (PyOutcome.raised true soB kindB msgB framesB) =
        Except.ok ⟨false, "", kindB ++ ": " ++ msgB, formatExc framesB kindB msgB⟩ :=
  ⟨rfl, rfl⟩

/-- C6: every run starts the submitted source in the freshly created
empty namespace and consults no session state, so for any execution
semantics that is a function of the source text and its starting
namespace, two runs of the same source from any two session states —
and a run performed after any earlier sequence of runs — produce the
same `ExecutionResult`. -/
theorem execution_isolation (pyExec : String → PyNamespace → PyOutcome)
    (s1 s2 : SessionState) (src : String) (pre : List String) :
    codeRun pyExec s1 src = codeRun pyExec s2 src ∧
      runMany pyExec s1 (pre ++ [src]) =
        runMany pyExec s1 pre ++ [codeRun pyExec s2 src] := by
  refine ⟨rfl, ?_⟩
  simp only [runMany, List.map_append, List.map_cons, List.map_nil]
  rfl

/-- C8 witness at the concrete transcript `[assistant "a", user "u"]`. -/
theorem select_deterministic_witness :
    select [⟨Role.assistant, "a"⟩, ⟨Role.user, "u"⟩] =
        select [⟨Role.assistant, "a"⟩, ⟨Role.user, "u"⟩] ∧
      renderList [⟨Role.assistant, "a"⟩, ⟨Role.user, "u"⟩] =
        renderList [⟨Role.assistant, "a"⟩, ⟨Role.user, "u"⟩] :=
  select_deterministic [⟨Role.assistant, "a"⟩, ⟨Role.user, "u"⟩]
    [⟨Role.assistant, "a"⟩, ⟨Role.user, "u"⟩] rfl
